import Mathlib

/-!
# Squeeze2Diretta — verification of the spec against the source

Shallow embedding of the squeeze2diretta bridge
(`src/squeeze2diretta/diretta/DirettaOutputSimple.cpp` and the wrapper
`main` in `src/diretta/globals.cpp`) together with proofs settling the
frozen claims about it.

The `DirettaOutputSimple` C++ class is modelled as a record of its member
variables; each method becomes a pure function from the old state (plus an
environment describing the behaviour of the proprietary `DIRETTA::SyncBuffer`
SDK object) to the new state, the C++ return value, and the list of calls
made into the SDK.  The wrapper's pump loop in `main` is modelled as a
recursion over the list of `read(2)` results.
-/

set_option maxRecDepth 4000

/-- Audio format descriptor, from `DirettaOutputSimple.h`:
`{ sampleRate : uint32, bitDepth : uint8, channels : uint8, isDSD : bool }`.
Machine-integer widths are irrelevant to the claims (no arithmetic ever
wraps these fields), so the numeric fields are modelled as `Nat`. -/
structure AudioFormat where
  sampleRate : Nat
  bitDepth : Nat
  channels : Nat
  isDSD : Bool
deriving DecidableEq, Repr

/-- The opaque `DIRETTA::FormatID` identifier type (a C enum used as a
bit mask in the SDK), modelled as `Nat`. -/
abbrev FormatID := Nat

/-! ## FormatID constants

Modelled from the spec: the numeric values of the `DIRETTA::FormatID`
enum constants come from the proprietary Diretta SDK header, which is not
part of this repository (only `buildFormatID`'s use of them is).  The spec
describes the mapping as "a pure lookup table … every supported combination
returns a distinct non-sentinel value", so the constants are modelled as
bit flags in pairwise disjoint bit fields (PCM sample sizes, PCM rates,
DSD container size, DSD rates, channel configuration), with the sentinel
`FMT_INVALID = 0`.  All claims about `buildFormatID` are relative to this
modelling of the SDK constants. -/

def FMT_INVALID : FormatID := 0

def FMT_PCM_SIGNED_16 : FormatID := 1

def FMT_PCM_SIGNED_24 : FormatID := 2

def FMT_PCM_SIGNED_32 : FormatID := 3

def FMT_PCM_R44100 : FormatID := 1 <<< 4

def FMT_PCM_R48000 : FormatID := 2 <<< 4

def FMT_PCM_R88200 : FormatID := 3 <<< 4

def FMT_PCM_R96000 : FormatID := 4 <<< 4

def FMT_PCM_R176400 : FormatID := 5 <<< 4

def FMT_PCM_R192000 : FormatID := 6 <<< 4

def FMT_PCM_R352800 : FormatID := 7 <<< 4

def FMT_PCM_R384000 : FormatID := 8 <<< 4

def FMT_PCM_R705600 : FormatID := 9 <<< 4

def FMT_PCM_R768000 : FormatID := 10 <<< 4

def FMT_DSD_SIZ_32 : FormatID := 1 <<< 8

def FMT_DSD_R64 : FormatID := 1 <<< 9

def FMT_DSD_R128 : FormatID := 2 <<< 9

def FMT_DSD_R256 : FormatID := 3 <<< 9

def FMT_DSD_R512 : FormatID := 4 <<< 9

def FMT_DSD_R1024 : FormatID := 5 <<< 9

def FMT_CH_2_0 : FormatID := 1 <<< 13

/-- The `switch (format.bitDepth)` of the PCM branch of `buildFormatID`
(`DirettaOutputSimple.cpp:338-345`): `none` models the `default:` case that
makes `buildFormatID` return `FMT_INVALID`. -/
def pcmDepthID (bitDepth : Nat) : Option FormatID :=
  match bitDepth with
  | 16 => some FMT_PCM_SIGNED_16
  | 24 => some FMT_PCM_SIGNED_24
  | 32 => some FMT_PCM_SIGNED_32
  | _ => none

/-- The `switch (format.sampleRate)` of the PCM branch of `buildFormatID`
(`DirettaOutputSimple.cpp:348-362`). -/
def pcmRateID (sampleRate : Nat) : Option FormatID :=
  match sampleRate with
  | 44100 => some FMT_PCM_R44100
  | 48000 => some FMT_PCM_R48000
  | 88200 => some FMT_PCM_R88200
  | 96000 => some FMT_PCM_R96000
  | 176400 => some FMT_PCM_R176400
  | 192000 => some FMT_PCM_R192000
  | 352800 => some FMT_PCM_R352800
  | 384000 => some FMT_PCM_R384000
  | 705600 => some FMT_PCM_R705600
  | 768000 => some FMT_PCM_R768000
  | _ => none

/-- The `switch (format.sampleRate)` of the DSD branch of `buildFormatID`
(`DirettaOutputSimple.cpp:325-334`). -/
def dsdRateID (sampleRate : Nat) : Option FormatID :=
  match sampleRate with
  | 2822400 => some FMT_DSD_R64
  | 5644800 => some FMT_DSD_R128
  | 11289600 => some FMT_DSD_R256
  | 22579200 => some FMT_DSD_R512
  | 45158400 => some FMT_DSD_R1024
  | _ => none

/-- `DirettaOutputSimple::buildFormatID` (`DirettaOutputSimple.cpp:317-369`).
DSD formats get the 32-bit container flag plus a rate flag; PCM formats get
a sample-size flag plus a rate flag; both get the stereo channel flag ORed
in at the end.  Any `default:` case returns the sentinel `FMT_INVALID`
directly (without the channel flag).  The function is total (the C++
function never throws). -/
def buildFormatID (format : AudioFormat) : FormatID :=
  if format.isDSD then
    match dsdRateID format.sampleRate with
    | some r => (FMT_DSD_SIZ_32 ||| r) ||| FMT_CH_2_0
    | none => FMT_INVALID
  else
    match pcmDepthID format.bitDepth with
    | none => FMT_INVALID
    | some d =>
      match pcmRateID format.sampleRate with
      | some r => (d ||| r) ||| FMT_CH_2_0
      | none => FMT_INVALID

/-- The supported PCM bit depths, as listed by the claim. -/
def pcmBitDepths : List Nat := [16, 24, 32]

/-- The supported PCM sample rates, as listed by the claim. -/
def pcmRates : List Nat :=
  [44100, 48000, 88200, 96000, 176400, 192000, 352800, 384000, 705600, 768000]

/-- The supported DSD sample rates (DSD64 … DSD1024), as listed by the
claim. -/
def dsdRates : List Nat := [2822400, 5644800, 11289600, 22579200, 45158400]

/-- A `(encoding, bitDepth-or-dsdRate, sampleRate)` combination is supported:
PCM with bit depth in {16,24,32} and one of the ten PCM rates, or DSD at one
of the five DSD rates. -/
def supportedFormat (f : AudioFormat) : Bool :=
  if f.isDSD then decide (f.sampleRate ∈ dsdRates)
  else decide (f.bitDepth ∈ pcmBitDepths) && decide (f.sampleRate ∈ pcmRates)

/-- The part of an `AudioFormat` that `buildFormatID` actually reads:
the encoding, the bit depth (ignored by the DSD branch, canonicalised to 0
there), and the sample rate.  The channel count never influences the
result. -/
def fmtKey (f : AudioFormat) : Bool × Nat × Nat :=
  (f.isDSD, if f.isDSD then 0 else f.bitDepth, f.sampleRate)

/-- `buildFormatID` restricted to keys. -/
def keyFormatID (k : Bool × Nat × Nat) : FormatID :=
  buildFormatID { sampleRate := k.2.2, bitDepth := k.2.1, channels := 2, isDSD := k.1 }

/-- All 35 supported keys: 3 PCM depths × 10 PCM rates, plus 5 DSD rates. -/
def supportedKeys : List (Bool × Nat × Nat) :=
  ((pcmBitDepths ×ˢ pcmRates).map fun p => (false, p.1, p.2)) ++
    (dsdRates.map fun r => (true, 0, r))

theorem buildFormatID_eq_keyFormatID (f : AudioFormat) :
    buildFormatID f = keyFormatID (fmtKey f) := by
  cases f with
  | mk sr bd ch dsd =>
    cases dsd <;> simp [buildFormatID, keyFormatID, fmtKey]

theorem dsdRateID_isSome_iff (r : Nat) :
    (dsdRateID r).isSome = true ↔ r ∈ dsdRates := by
  unfold dsdRateID
  split <;> simp_all [dsdRates]

theorem pcmRateID_isSome_iff (r : Nat) :
    (pcmRateID r).isSome = true ↔ r ∈ pcmRates := by
  unfold pcmRateID
  split <;> simp_all [pcmRates]

theorem pcmDepthID_isSome_iff (b : Nat) :
    (pcmDepthID b).isSome = true ↔ b ∈ pcmBitDepths := by
  unfold pcmDepthID
  split <;> simp_all [pcmBitDepths]

theorem supportedFormat_iff_mem_supportedKeys (f : AudioFormat) :
    supportedFormat f = true ↔ fmtKey f ∈ supportedKeys := by
  cases f with
  | mk sr bd ch dsd =>
    cases dsd with
    | true =>
      simp [supportedFormat, fmtKey, supportedKeys, List.mem_append,
        List.mem_map]
    | false =>
      have hL : supportedFormat ⟨sr, bd, ch, false⟩ = true ↔
          bd ∈ pcmBitDepths ∧ sr ∈ pcmRates := by
        simp [supportedFormat]
      have hK : fmtKey ⟨sr, bd, ch, false⟩ = (false, bd, sr) := rfl
      rw [hL, hK, supportedKeys, List.mem_append]
      constructor
      · intro h
        exact Or.inl (List.mem_map.2 ⟨(bd, sr), List.mem_product.2 h, rfl⟩)
      · intro h
        cases h with
        | inl h =>
          obtain ⟨p, hp, hpe⟩ := List.mem_map.1 h
          obtain ⟨pb, pr⟩ := p
          simp only [Prod.mk.injEq] at hpe
          obtain ⟨-, h1, h2⟩ := hpe
          subst h1; subst h2
          exact List.mem_product.1 hp
        | inr h =>
          obtain ⟨r, hr, hre⟩ := List.mem_map.1 h
          simp at hre

theorem supportedKeys_formatIDs_nodup :
    (supportedKeys.map keyFormatID).Nodup := by decide

theorem supportedKeys_formatIDs_ne_invalid :
    ∀ k ∈ supportedKeys, keyFormatID k ≠ FMT_INVALID := by decide

theorem buildFormatID_invalid_of_unsupported (f : AudioFormat)
    (h : supportedFormat f = false) : buildFormatID f = FMT_INVALID := by
  cases f with
  | mk sr bd ch dsd =>
    cases dsd with
    | true =>
      have hnone : dsdRateID sr = none := by
        cases hd : dsdRateID sr with
        | none => rfl
        | some v =>
          exfalso
          have : (dsdRateID sr).isSome = true := by simp [hd]
          rw [dsdRateID_isSome_iff] at this
          simp [supportedFormat, this] at h
      simp [buildFormatID, hnone]
    | false =>
      by_cases hb : (pcmDepthID bd).isSome = true
      · cases hd : pcmDepthID bd with
        | none => simp [buildFormatID, hd]
        | some v =>
          have hr : pcmRateID sr = none := by
            cases hrr : pcmRateID sr with
            | none => rfl
            | some w =>
              exfalso
              have h1 : (pcmRateID sr).isSome = true := by simp [hrr]
              rw [pcmRateID_isSome_iff] at h1
              rw [pcmDepthID_isSome_iff] at hb
              simp [supportedFormat, h1, hb] at h
          simp [buildFormatID, hd, hr]
      · cases hd : pcmDepthID bd with
        | none => simp [buildFormatID, hd]
        | some v => simp [hd] at hb

/-- **C1.** For every supported `(encoding, bitDepth-or-dsdRate, sampleRate)`
combination, `buildFormatID` returns a value distinct from `FMT_INVALID` and
distinct from the value of every other supported combination (two supported
formats with equal identifiers agree on encoding, sample rate, and — for
PCM — bit depth); for every unsupported combination it returns the sentinel
`FMT_INVALID`.  The function is total, so it never throws.  The SDK enum
constants are modelled from the spec (see the FormatID section above). -/
theorem buildFormatID_supported_distinct_unsupported_invalid
    (f g : AudioFormat) :
    (supportedFormat f = true → buildFormatID f ≠ FMT_INVALID) ∧
    (supportedFormat f = true → supportedFormat g = true →
      buildFormatID f = buildFormatID g → fmtKey f = fmtKey g) ∧
    (supportedFormat f = false → buildFormatID f = FMT_INVALID) := by
  refine ⟨?_, ?_, buildFormatID_invalid_of_unsupported f⟩
  · intro hf
    rw [buildFormatID_eq_keyFormatID]
    exact supportedKeys_formatIDs_ne_invalid _
      ((supportedFormat_iff_mem_supportedKeys f).1 hf)
  · intro hf hg heq
    rw [buildFormatID_eq_keyFormatID, buildFormatID_eq_keyFormatID] at heq
    exact List.inj_on_of_nodup_map supportedKeys_formatIDs_nodup
      ((supportedFormat_iff_mem_supportedKeys f).1 hf)
      ((supportedFormat_iff_mem_supportedKeys g).1 hg) heq

/-- Witness for C1 at concrete inputs: PCM 16-bit 44.1 kHz is supported and
maps to a non-sentinel identifier, while PCM 20-bit 44.1 kHz is unsupported
and maps to the sentinel. -/
theorem buildFormatID_supported_distinct_unsupported_invalid_witness :
    buildFormatID ⟨44100, 16, 2, false⟩ ≠ FMT_INVALID ∧
    buildFormatID ⟨44100, 20, 2, false⟩ = FMT_INVALID :=
  ⟨(buildFormatID_supported_distinct_unsupported_invalid
      ⟨44100, 16, 2, false⟩ ⟨44100, 16, 2, false⟩).1 (by decide),
   (buildFormatID_supported_distinct_unsupported_invalid
      ⟨44100, 20, 2, false⟩ ⟨44100, 16, 2, false⟩).2.2 (by decide)⟩

/-! ## The `DirettaOutputSimple` adapter

The class is modelled as a record of its member variables
(`DirettaOutputSimple.h`).  The proprietary `DIRETTA::SyncBuffer` object it
drives is external to the repository; its methods cannot fail in any way the
C++ code observes except for target discovery (`find`) and the connection
poll (`is_connect`), so the environment `Env` records the discovery result
and whether the connection comes up within the 10-second timeout, and every
method of the adapter additionally returns the list of SDK calls it made. -/

/-- One call into the `DIRETTA::SyncBuffer` SDK object. -/
inductive SinkCall where
  | sbOpen (thredMode : Int)
  | setSink (addr : String) (mtu : Int)
  | setSinkConfigure (id : FormatID)
  | configTransferAuto (infoCycle cycleMinTime cycleTime : Int)
  | configTransferVarMax (infoCycle : Int)
  | setupBuffer (totalFrames : Int)
  | connect
  | play
  | stop
  | disconnect
  | sbClose
  | setStream (dataSize : Nat)
  | find
deriving DecidableEq, Repr

/-- Behaviour of the external SDK during one adapter call:
`findCount` is what `m_syncBuffer->find()` returns, `sinkAddrs` the
addresses behind `getSinkAddr(i).toString()`, and `connectSucceeds` whether
`is_connect()` becomes true within `open`'s 10-second poll. -/
structure Env where
  findCount : Nat
  sinkAddrs : List String
  connectSucceeds : Bool
deriving DecidableEq, Repr

/-- The member variables of `DirettaOutputSimple`
(`DirettaOutputSimple.h`, constructor at `DirettaOutputSimple.cpp:15-32`).
`syncBufferNull` models `m_syncBuffer == nullptr` (false for the whole life
of the object: the constructor allocates it and only the destructor frees
it).  `m_bufferSeconds` is a C++ `float` that is only ever stored and passed
through, never used in any computation a claim depends on; it is modelled
exactly as a rational.  `m_totalSamplesSent` is a `uint64_t`, hence the
`% 2 ^ 64` where it is incremented. -/
structure DirettaOutputSimple where
  syncBufferNull : Bool
  targetAddress : String
  selectedTargetIndex : Int
  currentFormat : AudioFormat
  bufferSeconds : Rat
  playing : Bool
  isPaused : Bool
  thredMode : Int
  cycleTime : Int
  cycleMinTime : Int
  infoCycle : Int
  mtu : Int
  totalSamplesSent : Nat
deriving DecidableEq, Repr

namespace DirettaOutputSimple

/-- The constructor (`DirettaOutputSimple.cpp:15-32`): no target selected
(`m_selectedTargetIndex = -1`), zeroed format, 2.0-second buffer, not
playing, not paused, default transfer tuning, nothing sent. -/
def init : DirettaOutputSimple :=
  { syncBufferNull := false
    targetAddress := ""
    selectedTargetIndex := -1
    currentFormat := { sampleRate := 0, bitDepth := 0, channels := 0, isDSD := false }
    bufferSeconds := 2
    playing := false
    isPaused := false
    thredMode := 1
    cycleTime := 10000
    cycleMinTime := 333
    infoCycle := 5000
    mtu := 0
    totalSamplesSent := 0 }

/-- `DirettaOutputSimple::selectTarget` (`DirettaOutputSimple.cpp:81-112`):
fails without touching any state if the sync buffer is missing, if
discovery finds no target, or if the index is out of `[0, count)`;
otherwise stores the index and the target's address and succeeds. -/
def selectTarget (s : DirettaOutputSimple) (env : Env) (index : Int) :
    DirettaOutputSimple × Bool × List SinkCall :=
  if s.syncBufferNull then (s, false, [])
  else if env.findCount = 0 then (s, false, [.find])
  else if index < 0 || (env.findCount : Int) ≤ index then (s, false, [.find])
  else
    ({ s with selectedTargetIndex := index,
              targetAddress := env.sinkAddrs.getD index.toNat "" },
     true, [.find])

/-- `DirettaOutputSimple::open` (`DirettaOutputSimple.cpp:114-216`).
Returns false immediately (no SDK call, no state change) when no target was
selected.  Otherwise it stores the requested format and buffer size
*before* doing anything else, performs the seven SDK steps, and on a
connection timeout returns false with the format/buffer fields already
overwritten; only on success does it set `m_playing = true`,
`m_isPaused = false`, `m_totalSamplesSent = 0`.  (The C++ method is named
`open`, a Lean keyword.)  `setupBuffer`'s frame count is
`static_cast<int>(sampleRate * bufferSeconds)`, i.e. the rational product
truncated; the claims never depend on its value. -/
def openConn (s : DirettaOutputSimple) (env : Env) (format : AudioFormat)
    (bufferSeconds : Rat) : DirettaOutputSimple × Bool × List SinkCall :=
  if s.selectedTargetIndex < 0 then (s, false, [])
  else
    let s1 := { s with currentFormat := format, bufferSeconds := bufferSeconds }
    let mtu : Int := if 0 < s.mtu then s.mtu else 16128
    let formatID := buildFormatID format
    let isLowBitrate :=
      format.bitDepth ≤ 16 && format.sampleRate ≤ 48000 && !format.isDSD
    let transferCall :=
      if isLowBitrate then
        SinkCall.configTransferAuto s.infoCycle s.cycleMinTime s.cycleTime
      else SinkCall.configTransferVarMax s.infoCycle
    let totalFrames : Int := ((format.sampleRate : Rat) * bufferSeconds).floor
    let calls := [SinkCall.sbOpen s.thredMode,
                  SinkCall.setSink s.targetAddress mtu,
                  SinkCall.setSinkConfigure formatID,
                  transferCall,
                  SinkCall.setupBuffer totalFrames,
                  SinkCall.connect]
    if env.connectSucceeds then
      ({ s1 with playing := true, isPaused := false, totalSamplesSent := 0 },
       true, calls ++ [SinkCall.play])
    else (s1, false, calls)

/-- `DirettaOutputSimple::sendAudio` (`DirettaOutputSimple.cpp:218-253`):
returns false (forwarding nothing) unless playing with a live sync buffer;
silently discards the chunk (returning true) while paused; otherwise copies
and submits `dataSize` bytes, where `dataSize` is
`(numSamples * channels) / 8` for DSD and
`numSamples * (bitDepth / 8) * channels` for PCM, computed from
`m_currentFormat`.  The audio bytes themselves are never inspected by the
C++ code, so only the byte count is modelled. -/
def sendAudio (s : DirettaOutputSimple) (numSamples : Nat) :
    DirettaOutputSimple × Bool × List SinkCall :=
  if !s.playing || s.syncBufferNull then (s, false, [])
  else if s.isPaused then (s, true, [])
  else
    let dataSize :=
      if s.currentFormat.isDSD then (numSamples * s.currentFormat.channels) / 8
      else numSamples * ((s.currentFormat.bitDepth / 8) * s.currentFormat.channels)
    ({ s with totalSamplesSent := (s.totalSamplesSent + numSamples) % 2 ^ 64 },
     true, [.setStream dataSize])

/-- `DirettaOutputSimple::disconnectFromTarget`
(`DirettaOutputSimple.cpp:310-315`): `disconnect(); close();` on the SDK
object when it exists; touches no member variable. -/
def disconnectFromTarget (s : DirettaOutputSimple) : List SinkCall :=
  if !s.syncBufferNull then [.disconnect, .sbClose] else []

/-- `DirettaOutputSimple::changeFormat` (`DirettaOutputSimple.cpp:255-266`):
if playing, stops the stream and disconnects (without clearing
`m_playing`), then reopens with the new format and the stored
`m_bufferSeconds`. -/
def changeFormat (s : DirettaOutputSimple) (env : Env) (newFormat : AudioFormat) :
    DirettaOutputSimple × Bool × List SinkCall :=
  let pre := if s.playing then SinkCall.stop :: s.disconnectFromTarget else []
  let r := openConn s env newFormat s.bufferSeconds
  (r.1, r.2.1, pre ++ r.2.2)

/-- `DirettaOutputSimple::pause` (`DirettaOutputSimple.cpp:268-279`):
no-op unless playing and not yet paused; otherwise stops the SDK stream and
sets the paused flag. -/
def pause (s : DirettaOutputSimple) : DirettaOutputSimple × List SinkCall :=
  if !s.playing || s.isPaused then (s, [])
  else ({ s with isPaused := true }, [.stop])

/-- `DirettaOutputSimple::resume` (`DirettaOutputSimple.cpp:281-292`):
no-op unless playing and paused; otherwise restarts the SDK stream and
clears the paused flag. -/
def resume (s : DirettaOutputSimple) : DirettaOutputSimple × List SinkCall :=
  if !s.playing || !s.isPaused then (s, [])
  else ({ s with isPaused := false }, [.play])

/-- `DirettaOutputSimple::close` (`DirettaOutputSimple.cpp:294-308`):
no-op when not playing; otherwise stops, disconnects, and clears the
playing/paused flags. -/
def close (s : DirettaOutputSimple) : DirettaOutputSimple × List SinkCall :=
  if !s.playing then (s, [])
  else ({ s with playing := false, isPaused := false },
        SinkCall.stop :: s.disconnectFromTarget)

end DirettaOutputSimple

/-! ## The wrapper `main` (`src/diretta/globals.cpp`, squeeze2diretta-wrapper)

`main` selects a target, creates a pipe, forks squeezelite, opens the
Diretta output with a fixed initial format, then loops:
`read` from the pipe; on `bytes_read == 0` print "Squeezelite closed" and
break; on `bytes_read < 0` print a read error and break; otherwise compute
`num_samples = bytes_read / bytes_per_frame * channels` and call
`sendAudio`, breaking with "Failed to send audio to Diretta" if it returns
false.  After the loop it closes the output, reaps the child, and
`return 0;`.  The successive `read(2)` return values are modelled as a
`List Int` (positive = chunk of that many bytes, `0` = EOF because the
child exited, negative = read error). -/

/-- The diagnostic messages `main` can print on its way to an exit. -/
inductive LogEvent where
  | childClosedMsg
  | readErrorMsg
  | sendFailedMsg
  | selectFailedMsg
  | pipeFailedMsg
  | forkFailedMsg
  | openFailedMsg
deriving DecidableEq, Repr

/-- Why the pump loop stopped. -/
inductive BreakReason where
  | inputExhausted
  | childClosed
  | readFailed
  | sendFailed
deriving DecidableEq, Repr

/-- Result of running the pump loop: final adapter state, the SDK calls
made, the messages printed, why it stopped, and how many `read` results it
consumed. -/
structure LoopOut where
  state : DirettaOutputSimple
  calls : List SinkCall
  logs : List LogEvent
  reason : BreakReason
  consumed : Nat
deriving DecidableEq, Repr

/-- `bytes_per_frame = (format.bitDepth / 8) * format.channels`
(`globals.cpp`, wrapper `main`), computed once from the local `format`
before the loop. -/
def mainBytesPerFrame (f : AudioFormat) : Nat := (f.bitDepth / 8) * f.channels

/-- The wrapper's read-and-forward loop (`globals.cpp`, wrapper `main`,
`while (running) { ... }`).  The modelled trace assumes no termination
signal arrives (`running` stays true), which is the hypothesis of the
claims about it. -/
def pumpLoop (d : DirettaOutputSimple) (format : AudioFormat) :
    List Int → LoopOut
  | [] => ⟨d, [], [], .inputExhausted, 0⟩
  | r :: rs =>
    if r ≤ 0 then
      if r = 0 then ⟨d, [], [.childClosedMsg], .childClosed, 1⟩
      else ⟨d, [], [.readErrorMsg], .readFailed, 1⟩
    else
      let numSamples := r.toNat / mainBytesPerFrame format * format.channels
      let step := DirettaOutputSimple.sendAudio d numSamples
      if step.2.1 then
        let rest := pumpLoop step.1 format rs
        ⟨rest.state, step.2.2 ++ rest.calls, rest.logs, rest.reason,
         rest.consumed + 1⟩
      else ⟨step.1, step.2.2, [.sendFailedMsg], .sendFailed, 1⟩

/-- The wrapper's command-line configuration (`struct Config` in
`globals.cpp`), restricted to the fields the modelled part of `main`
reads.  `diretta_target` is the C++ `unsigned`; `main` passes
`diretta_target - 1` to `selectTarget` (1-based to 0-based). -/
structure Config where
  sample_format : Nat
  diretta_target : Nat
  buffer_seconds : Rat
  thread_mode : Int
  cycle_time : Int
  cycle_min_time : Int
  info_cycle : Int
  mtu : Int
  list_targets : Bool
deriving Repr

/-- Everything outside the process that `main`'s control flow depends on:
the SDK environment, whether `pipe(2)` and `fork(2)` succeed, and the
sequence of `read(2)` results from the child's stdout. -/
structure MainEnv where
  sinkEnv : Env
  pipeOk : Bool
  forkOk : Bool
  reads : List Int
deriving Repr

/-- `main`'s configuration calls on the fresh `DirettaOutputSimple`
(`globals.cpp`: `setThredMode`/`setCycleTime`/`setCycleMinTime`/
`setInfoCycle`, and `setMTU` only when `config.mtu > 0`). -/
def configureState (cfg : Config) : DirettaOutputSimple :=
  let d := { DirettaOutputSimple.init with
    thredMode := cfg.thread_mode
    cycleTime := cfg.cycle_time
    cycleMinTime := cfg.cycle_min_time
    infoCycle := cfg.info_cycle }
  if 0 < cfg.mtu then { d with mtu := cfg.mtu } else d

/-- The `selectTarget(config.diretta_target - 1)` call in `main`.
(For `diretta_target = 0` the C++ unsigned wrap-around converted to `int`
yields `-1` on the usual two's-complement platforms, which is what
`(0 : Int) - 1` gives.) -/
def mainSelected (cfg : Config) (menv : MainEnv) :
    DirettaOutputSimple × Bool × List SinkCall :=
  DirettaOutputSimple.selectTarget (configureState cfg) menv.sinkEnv
    ((cfg.diretta_target : Int) - 1)

/-- The initial format `main` assumes before any stream data:
44.1 kHz, the configured `-a` bit depth, stereo, PCM (`globals.cpp`). -/
def mainFormat (cfg : Config) : AudioFormat :=
  { sampleRate := 44100, bitDepth := cfg.sample_format, channels := 2, isDSD := false }

/-- The `diretta.open(format, config.buffer_seconds)` call in `main`. -/
def mainOpened (cfg : Config) (menv : MainEnv) :
    DirettaOutputSimple × Bool × List SinkCall :=
  DirettaOutputSimple.openConn (mainSelected cfg menv).1 menv.sinkEnv
    (mainFormat cfg) cfg.buffer_seconds

/-- The pump loop as run by `main`, starting from the opened adapter. -/
def mainPump (cfg : Config) (menv : MainEnv) : LoopOut :=
  pumpLoop (mainOpened cfg menv).1 (mainFormat cfg) menv.reads

/-- The wrapper `main` (`globals.cpp`): returns the process exit code and
the diagnostic messages printed.  Exit code 1 on target-selection, pipe,
fork, or open failure; after the pump loop ends — for whatever reason —
it cleans up (`diretta.close()`, reap child) and returns 0. -/
def mainRun (cfg : Config) (menv : MainEnv) : Nat × List LogEvent :=
  if cfg.list_targets then (0, [])
  else if !(mainSelected cfg menv).2.1 then (1, [.selectFailedMsg])
  else if !menv.pipeOk then (1, [.pipeFailedMsg])
  else if !menv.forkOk then (1, [.forkFailedMsg])
  else if !(mainOpened cfg menv).2.1 then (1, [.openFailedMsg])
  else (0, (mainPump cfg menv).logs)

/-! ## Reachable states of the adapter

Any caller of the public API of `DirettaOutputSimple` performs a sequence
of the operations below; a reachable state is the result of running such a
sequence from the constructor's state.  Each operation carries the SDK
environment in effect during that call. -/

/-- One public-API call on the adapter. -/
inductive Op where
  | opSelectTarget (env : Env) (index : Int)
  | opOpen (env : Env) (format : AudioFormat) (bufferSeconds : Rat)
  | opSendAudio (numSamples : Nat)
  | opChangeFormat (env : Env) (format : AudioFormat)
  | opPause
  | opResume
  | opClose
  | opSetThredMode (n : Int)
  | opSetCycleTime (n : Int)
  | opSetCycleMinTime (n : Int)
  | opSetInfoCycle (n : Int)
  | opSetMTU (n : Int)

/-- Execute one operation: new state, C++ return value (`true` for the
`void` methods), SDK calls made. -/
def step (s : DirettaOutputSimple) : Op → DirettaOutputSimple × Bool × List SinkCall
  | .opSelectTarget env index => s.selectTarget env index
  | .opOpen env format bufferSeconds => s.openConn env format bufferSeconds
  | .opSendAudio numSamples => s.sendAudio numSamples
  | .opChangeFormat env format => s.changeFormat env format
  | .opPause => let r := s.pause; (r.1, true, r.2)
  | .opResume => let r := s.resume; (r.1, true, r.2)
  | .opClose => let r := s.close; (r.1, true, r.2)
  | .opSetThredMode n => ({ s with thredMode := n }, true, [])
  | .opSetCycleTime n => ({ s with cycleTime := n }, true, [])
  | .opSetCycleMinTime n => ({ s with cycleMinTime := n }, true, [])
  | .opSetInfoCycle n => ({ s with infoCycle := n }, true, [])
  | .opSetMTU n => ({ s with mtu := n }, true, [])

/-- Run a sequence of operations. -/
def run (s : DirettaOutputSimple) : List Op → DirettaOutputSimple
  | [] => s
  | op :: ops => run (step s op).1 ops

/-- Reference history predicate: `true` exactly when some `open` (directly
or via `changeFormat`) succeeded and no `close` happened after it;
`acc` is its value for the history before `ops`. -/
def openSinceClose (s : DirettaOutputSimple) (acc : Bool) : List Op → Bool
  | [] => acc
  | op :: ops =>
    let r := step s op
    let acc2 := match op with
      | .opOpen _ _ _ => if r.2.1 then true else acc
      | .opChangeFormat _ _ => if r.2.1 then true else acc
      | .opClose => false
      | _ => acc
    openSinceClose r.1 acc2 ops

/-- Reference history predicate: no `selectTarget` call in `ops` (run from
`s`) returned true. -/
def noSelectSuccess (s : DirettaOutputSimple) : List Op → Bool
  | [] => true
  | op :: ops =>
    let r := step s op
    match op with
    | .opSelectTarget _ _ => if r.2.1 then false else noSelectSuccess r.1 ops
    | _ => noSelectSuccess r.1 ops


theorem selectTarget_playing (s : DirettaOutputSimple) (env : Env) (i : Int) :
    (s.selectTarget env i).1.playing = s.playing := by
  unfold DirettaOutputSimple.selectTarget
  repeat' split
  all_goals rfl

theorem selectTarget_fail_or_true (s : DirettaOutputSimple) (env : Env) (i : Int) :
    (s.selectTarget env i).1 = s ∨ (s.selectTarget env i).2.1 = true := by
  unfold DirettaOutputSimple.selectTarget
  repeat' split
  all_goals simp

theorem openConn_playing (s : DirettaOutputSimple) (env : Env) (f : AudioFormat)
    (bs : Rat) :
    (s.openConn env f bs).1.playing = ((s.openConn env f bs).2.1 || s.playing) := by
  unfold DirettaOutputSimple.openConn
  dsimp only
  repeat' split
  all_goals simp

theorem openConn_no_target (s : DirettaOutputSimple) (env : Env) (f : AudioFormat)
    (bs : Rat) (h : s.selectedTargetIndex < 0) :
    s.openConn env f bs = (s, false, []) := by
  unfold DirettaOutputSimple.openConn
  simp [h]

theorem openConn_selectedTargetIndex (s : DirettaOutputSimple) (env : Env)
    (f : AudioFormat) (bs : Rat) :
    (s.openConn env f bs).1.selectedTargetIndex = s.selectedTargetIndex := by
  unfold DirettaOutputSimple.openConn
  dsimp only
  repeat' split
  all_goals rfl

theorem changeFormat_eq_openConn (s : DirettaOutputSimple) (env : Env)
    (f : AudioFormat) :
    (s.changeFormat env f).1 = (s.openConn env f s.bufferSeconds).1 ∧
    (s.changeFormat env f).2.1 = (s.openConn env f s.bufferSeconds).2.1 := by
  unfold DirettaOutputSimple.changeFormat
  exact ⟨rfl, rfl⟩

theorem sendAudio_playing (s : DirettaOutputSimple) (n : Nat) :
    (s.sendAudio n).1.playing = s.playing := by
  unfold DirettaOutputSimple.sendAudio
  repeat' split
  all_goals rfl

theorem sendAudio_not_playing (s : DirettaOutputSimple) (n : Nat)
    (h : s.playing = false) : s.sendAudio n = (s, false, []) := by
  unfold DirettaOutputSimple.sendAudio
  simp [h]

theorem sendAudio_calls_imply_playing (s : DirettaOutputSimple) (n : Nat)
    (c : SinkCall) (h : c ∈ (s.sendAudio n).2.2) : s.playing = true := by
  by_cases hp : s.playing = true
  · exact hp
  · rw [sendAudio_not_playing s n (by simpa using hp)] at h
    simp at h

theorem pause_playing (s : DirettaOutputSimple) :
    (s.pause).1.playing = s.playing := by
  unfold DirettaOutputSimple.pause
  repeat' split
  all_goals rfl

theorem resume_playing (s : DirettaOutputSimple) :
    (s.resume).1.playing = s.playing := by
  unfold DirettaOutputSimple.resume
  repeat' split
  all_goals rfl

theorem close_playing (s : DirettaOutputSimple) : (s.close).1.playing = false := by
  unfold DirettaOutputSimple.close
  split
  · simp_all
  · rfl

theorem pause_not_playing (s : DirettaOutputSimple) (h : s.playing = false) :
    s.pause = (s, []) := by
  unfold DirettaOutputSimple.pause
  simp [h]

theorem resume_not_playing (s : DirettaOutputSimple) (h : s.playing = false) :
    s.resume = (s, []) := by
  unfold DirettaOutputSimple.resume
  simp [h]

theorem close_not_playing (s : DirettaOutputSimple) (h : s.playing = false) :
    s.close = (s, []) := by
  unfold DirettaOutputSimple.close
  simp [h]

theorem bool_or_eq_ite (x b : Bool) : (x || b) = if x = true then true else b := by
  cases x <;> simp

theorem run_playing_eq_openSinceClose (ops : List Op) :
    ∀ (s : DirettaOutputSimple) (b : Bool), s.playing = b →
      (run s ops).playing = openSinceClose s b ops := by
  induction ops with
  | nil => intro s b h; simpa [run, openSinceClose] using h
  | cons op ops ih =>
    intro s b h
    cases op with
    | opSelectTarget env i =>
      simp only [run, openSinceClose, step]
      exact ih _ _ (by rw [selectTarget_playing]; exact h)
    | opOpen env f bs =>
      simp only [run, openSinceClose, step]
      apply ih
      rw [openConn_playing, h]
      exact bool_or_eq_ite _ b
    | opSendAudio n =>
      simp only [run, openSinceClose, step]
      exact ih _ _ (by rw [sendAudio_playing]; exact h)
    | opChangeFormat env f =>
      simp only [run, openSinceClose, step]
      apply ih
      simp only [(changeFormat_eq_openConn s env f).1,
        (changeFormat_eq_openConn s env f).2]
      rw [openConn_playing, h]
      exact bool_or_eq_ite _ b
    | opPause =>
      simp only [run, openSinceClose, step]
      exact ih _ _ (by rw [pause_playing]; exact h)
    | opResume =>
      simp only [run, openSinceClose, step]
      exact ih _ _ (by rw [resume_playing]; exact h)
    | opClose =>
      simp only [run, openSinceClose, step]
      exact ih _ _ (close_playing s)
    | opSetThredMode n =>
      simp only [run, openSinceClose, step]
      exact ih _ _ h
    | opSetCycleTime n =>
      simp only [run, openSinceClose, step]
      exact ih _ _ h
    | opSetCycleMinTime n =>
      simp only [run, openSinceClose, step]
      exact ih _ _ h
    | opSetInfoCycle n =>
      simp only [run, openSinceClose, step]
      exact ih _ _ h
    | opSetMTU n =>
      simp only [run, openSinceClose, step]
      exact ih _ _ h

theorem run_no_select_no_target (ops : List Op) :
    ∀ s : DirettaOutputSimple, s.selectedTargetIndex < 0 → s.playing = false →
      noSelectSuccess s ops = true →
      (run s ops).selectedTargetIndex < 0 ∧ (run s ops).playing = false := by
  induction ops with
  | nil => intro s h1 h2 _; exact ⟨h1, h2⟩
  | cons op ops ih =>
    intro s h1 h2 h3
    cases op with
    | opSelectTarget env i =>
      simp only [run, step]
      simp only [noSelectSuccess, step] at h3
      cases hok : (s.selectTarget env i).2.1 with
      | true => rw [hok] at h3; simp at h3
      | false =>
        rw [hok] at h3; simp only [if_neg Bool.false_ne_true, Bool.false_eq_true,
          if_false] at h3
        rcases selectTarget_fail_or_true s env i with hst | hok2
        · rw [hst] at h3 ⊢; exact ih s h1 h2 h3
        · rw [hok2] at hok; cases hok
    | opOpen env f bs =>
      simp only [run, step]
      simp only [noSelectSuccess, step] at h3
      rw [openConn_no_target s env f bs h1] at h3 ⊢
      exact ih s h1 h2 h3
    | opSendAudio n =>
      simp only [run, step]
      simp only [noSelectSuccess, step] at h3
      rw [sendAudio_not_playing s n h2] at h3 ⊢
      exact ih s h1 h2 h3
    | opChangeFormat env f =>
      simp only [run, step]
      simp only [noSelectSuccess, step] at h3
      unfold DirettaOutputSimple.changeFormat at h3 ⊢
      rw [openConn_no_target s env f s.bufferSeconds h1] at h3 ⊢
      exact ih s h1 h2 h3
    | opPause =>
      simp only [run, step]
      simp only [noSelectSuccess, step] at h3
      rw [pause_not_playing s h2] at h3 ⊢
      exact ih s h1 h2 h3
    | opResume =>
      simp only [run, step]
      simp only [noSelectSuccess, step] at h3
      rw [resume_not_playing s h2] at h3 ⊢
      exact ih s h1 h2 h3
    | opClose =>
      simp only [run, step]
      simp only [noSelectSuccess, step] at h3
      rw [close_not_playing s h2] at h3 ⊢
      exact ih s h1 h2 h3
    | opSetThredMode n =>
      simp only [run, step]
      simp only [noSelectSuccess, step] at h3
      exact ih _ h1 h2 h3
    | opSetCycleTime n =>
      simp only [run, step]
      simp only [noSelectSuccess, step] at h3
      exact ih _ h1 h2 h3
    | opSetCycleMinTime n =>
      simp only [run, step]
      simp only [noSelectSuccess, step] at h3
      exact ih _ h1 h2 h3
    | opSetInfoCycle n =>
      simp only [run, step]
      simp only [noSelectSuccess, step] at h3
      exact ih _ h1 h2 h3
    | opSetMTU n =>
      simp only [run, step]
      simp only [noSelectSuccess, step] at h3
      exact ih _ h1 h2 h3

/-! ## Concrete fixtures used by witnesses and counterexamples -/

/-- An SDK environment with one discovered target whose connection comes up. -/
def envGood : Env :=
  { findCount := 1, sinkAddrs := ["10.0.0.2"], connectSucceeds := true }

/-- Same target, but `is_connect()` never becomes true (connection
timeout). -/
def envNoConnect : Env :=
  { findCount := 1, sinkAddrs := ["10.0.0.2"], connectSucceeds := false }

/-- CD-quality PCM. -/
def fmtA : AudioFormat :=
  { sampleRate := 44100, bitDepth := 16, channels := 2, isDSD := false }

/-- Hi-res PCM. -/
def fmtB : AudioFormat :=
  { sampleRate := 96000, bitDepth := 24, channels := 2, isDSD := false }

/-- Select the one target, then open successfully with `fmtA`. -/
def opsConnected : List Op :=
  [.opSelectTarget envGood 0, .opOpen envGood fmtA 2]

/-- The reachable state after `opsConnected`: connected and playing with
format `fmtA`. -/
def connectedState : DirettaOutputSimple :=
  run DirettaOutputSimple.init opsConnected

/-- **C7.** In every reachable state of the adapter, audio is submitted to
the target only in the connected/playing state: the `m_playing` flag of a
reachable state holds exactly when some `open` (directly or through
`changeFormat`) succeeded with no `close` after it, and `sendAudio` makes
an SDK call only when that is the case — in any other state nothing is
forwarded. -/
theorem audio_submitted_only_when_connected (ops : List Op) :
    (run DirettaOutputSimple.init ops).playing =
      openSinceClose DirettaOutputSimple.init false ops ∧
    (∀ (n : Nat) (c : SinkCall),
      c ∈ ((run DirettaOutputSimple.init ops).sendAudio n).2.2 →
      openSinceClose DirettaOutputSimple.init false ops = true) := by
  have h := run_playing_eq_openSinceClose ops DirettaOutputSimple.init false rfl
  refine ⟨h, fun n c hc => ?_⟩
  rw [← h]
  exact sendAudio_calls_imply_playing _ n c hc

/-- Witness for C7: after selecting a target and opening successfully,
`sendAudio 8` does submit a 32-byte buffer, and the history predicate
confirms the state is connected. -/
theorem audio_submitted_only_when_connected_witness :
    openSinceClose DirettaOutputSimple.init false opsConnected = true :=
  (audio_submitted_only_when_connected opsConnected).2 8 (.setStream 32)
    (by decide)

/-- **C10.** If `selectTarget` has never returned true since construction,
then `open` with any format and buffer size returns false without making
any SDK call (no negotiation, buffer setup, or connection) and without
changing the state, and the adapter is still in its initial not-playing
state. -/
theorem open_fails_without_selected_target (ops : List Op) (env : Env)
    (f : AudioFormat) (bs : Rat)
    (h : noSelectSuccess DirettaOutputSimple.init ops = true) :
    (run DirettaOutputSimple.init ops).openConn env f bs =
      (run DirettaOutputSimple.init ops, false, []) ∧
    (run DirettaOutputSimple.init ops).playing = false := by
  obtain ⟨h1, h2⟩ := run_no_select_no_target ops DirettaOutputSimple.init
    (by decide) rfl h
  exact ⟨openConn_no_target _ env f bs h1, h2⟩

/-- Witness for C10: after a history containing a failed `open` and a
`pause` (and no successful `selectTarget`), `open` still fails with no SDK
calls and no state change. -/
theorem open_fails_without_selected_target_witness :
    (run DirettaOutputSimple.init [.opOpen envGood fmtB 2, .opPause]).openConn
        envGood fmtA 2 =
      (run DirettaOutputSimple.init [.opOpen envGood fmtB 2, .opPause], false, []) :=
  (open_fails_without_selected_target [.opOpen envGood fmtB 2, .opPause]
    envGood fmtA 2 (by decide)).1

theorem sendAudio_playing_not_paused (d : DirettaOutputSimple) (n : Nat)
    (hp : d.playing = true) (hq : d.isPaused = false)
    (hn : d.syncBufferNull = false) :
    d.sendAudio n =
      ({ d with totalSamplesSent := (d.totalSamplesSent + n) % 2 ^ 64 }, true,
       [.setStream (if d.currentFormat.isDSD then
           (n * d.currentFormat.channels) / 8
         else n * ((d.currentFormat.bitDepth / 8) * d.currentFormat.channels))]) := by
  unfold DirettaOutputSimple.sendAudio
  simp [hp, hq, hn]

theorem openConn_currentFormat (s : DirettaOutputSimple) (env : Env)
    (f : AudioFormat) (bs : Rat) (h : 0 ≤ s.selectedTargetIndex) :
    ((s.openConn env f bs).1).currentFormat = f := by
  unfold DirettaOutputSimple.openConn
  rw [if_neg (by omega)]
  dsimp only
  split
  · rfl
  · rfl

/-- Exhaustive description of `open`'s three outcomes: early failure with
no target, connect-timeout failure with the format/buffer fields already
overwritten, and success. -/
theorem openConn_cases (s : DirettaOutputSimple) (env : Env) (f : AudioFormat)
    (bs : Rat) :
    (s.selectedTargetIndex < 0 ∧ s.openConn env f bs = (s, false, [])) ∨
    (0 ≤ s.selectedTargetIndex ∧ env.connectSucceeds = false ∧
      (s.openConn env f bs).1 =
        { s with currentFormat := f, bufferSeconds := bs } ∧
      (s.openConn env f bs).2.1 = false) ∨
    (0 ≤ s.selectedTargetIndex ∧ env.connectSucceeds = true ∧
      (s.openConn env f bs).1 =
        { s with currentFormat := f, bufferSeconds := bs, playing := true,
                 isPaused := false, totalSamplesSent := 0 } ∧
      (s.openConn env f bs).2.1 = true) := by
  by_cases h1 : s.selectedTargetIndex < 0
  · exact Or.inl ⟨h1, openConn_no_target s env f bs h1⟩
  · by_cases h2 : env.connectSucceeds = true
    · refine Or.inr (Or.inr ⟨by omega, h2, ?_, ?_⟩) <;>
        · unfold DirettaOutputSimple.openConn
          rw [if_neg h1]
          dsimp only
          rw [if_pos h2]
    · refine Or.inr (Or.inl ⟨by omega, by simpa using h2, ?_, ?_⟩) <;>
        · unfold DirettaOutputSimple.openConn
          rw [if_neg h1]
          dsimp only
          rw [if_neg h2]

/-- **C4.** In the playing, un-paused state, `sendAudio` copies and submits
exactly `numSamples * (bitDepth / 8) * channels` bytes for PCM and
`numSamples * channels / 8` bytes for DSD, with `channels`/`bitDepth` taken
from the adapter's current format (the format most recently passed to
`open`: second conjunct); and the pump loop calls it with
`numSamples = bytes_read / bytes_per_frame * channels` computed from the
loop's local format. -/
theorem sendAudio_byte_count (d : DirettaOutputSimple) (fmt : AudioFormat)
    (r : Int) (rs : List Int) (hr : 0 < r) (hp : d.playing = true)
    (hq : d.isPaused = false) (hn : d.syncBufferNull = false) :
    (pumpLoop d fmt (r :: rs)).calls =
      SinkCall.setStream
        (if d.currentFormat.isDSD then
          (r.toNat / mainBytesPerFrame fmt * fmt.channels) *
            d.currentFormat.channels / 8
        else
          (r.toNat / mainBytesPerFrame fmt * fmt.channels) *
            ((d.currentFormat.bitDepth / 8) * d.currentFormat.channels)) ::
      (pumpLoop
        (d.sendAudio (r.toNat / mainBytesPerFrame fmt * fmt.channels)).1
        fmt rs).calls ∧
    (∀ (s : DirettaOutputSimple) (env : Env) (g : AudioFormat) (bs : Rat),
      0 ≤ s.selectedTargetIndex → ((s.openConn env g bs).1).currentFormat = g) := by
  refine ⟨?_, fun s env g bs h => openConn_currentFormat s env g bs h⟩
  simp only [pumpLoop]
  rw [if_neg (by omega : ¬ r ≤ 0)]
  rw [sendAudio_playing_not_paused d _ hp hq hn]
  simp

/-- Witness for C4: from the connected state (PCM 16-bit stereo), a
4096-byte read becomes 2048 samples and an 8192-byte submission. -/
theorem sendAudio_byte_count_witness :
    (pumpLoop connectedState fmtA [4096]).calls =
      SinkCall.setStream 8192 ::
        (pumpLoop (connectedState.sendAudio 2048).1 fmtA []).calls := by
  rw [(sendAudio_byte_count connectedState fmtA 4096 [] (by decide) (by decide)
    (by decide) (by decide)).1]
  decide

/-- **C6.** For every index that is negative or at least the number of
discovered targets (including zero targets discovered), `selectTarget`
returns false and leaves the whole state — in particular the stored target
index and address — exactly as it was. -/
theorem selectTarget_out_of_range_no_mutation (s : DirettaOutputSimple)
    (env : Env) (index : Int)
    (h : env.findCount = 0 ∨ index < 0 ∨ (env.findCount : Int) ≤ index) :
    (s.selectTarget env index).1 = s ∧ (s.selectTarget env index).2.1 = false := by
  unfold DirettaOutputSimple.selectTarget
  split
  · exact ⟨rfl, rfl⟩
  · split
    · exact ⟨rfl, rfl⟩
    · split
      · exact ⟨rfl, rfl⟩
      · rename_i hnull hcount hb
        exfalso
        rcases h with h | h | h
        · exact hcount h
        · simp [h] at hb
        · simp [h] at hb

/-- Witness for C6: one target discovered, index 5 requested — failure and
no mutation. -/
theorem selectTarget_out_of_range_no_mutation_witness :
    (DirettaOutputSimple.init.selectTarget envGood 5).1 =
      DirettaOutputSimple.init ∧
    (DirettaOutputSimple.init.selectTarget envGood 5).2.1 = false :=
  selectTarget_out_of_range_no_mutation DirettaOutputSimple.init envGood 5
    (Or.inr (Or.inr (by decide)))

theorem openConn_calls (s : DirettaOutputSimple) (env : Env) (f : AudioFormat)
    (bs : Rat) (h : ¬ s.selectedTargetIndex < 0) :
    (s.openConn env f bs).2.2 =
      [SinkCall.sbOpen s.thredMode,
       SinkCall.setSink s.targetAddress (if 0 < s.mtu then s.mtu else 16128),
       SinkCall.setSinkConfigure (buildFormatID f),
       (if (f.bitDepth ≤ 16 && f.sampleRate ≤ 48000 && !f.isDSD) = true then
          SinkCall.configTransferAuto s.infoCycle s.cycleMinTime s.cycleTime
        else SinkCall.configTransferVarMax s.infoCycle),
       SinkCall.setupBuffer ((f.sampleRate : Rat) * bs).floor,
       SinkCall.connect] ++
      (if env.connectSucceeds then [SinkCall.play] else []) := by
  unfold DirettaOutputSimple.openConn
  rw [if_neg h]
  dsimp only
  split
  · simp
  · simp

/-- **C8.** For every format passed to `open` (with a target selected), the
choice between the small-packet (`configTransferAuto`) and large-packet
(`configTransferVarMax`) transport configuration is determined by
`(bitDepth, sampleRate, encoding)` alone, by the single fixed threshold of
the code: low-bitrate mode is used exactly when `bitDepth ≤ 16` and
`sampleRate ≤ 48000` and the encoding is PCM. -/
theorem transfer_mode_threshold (s : DirettaOutputSimple) (env : Env)
    (f : AudioFormat) (bs : Rat) (h : 0 ≤ s.selectedTargetIndex) :
    (SinkCall.configTransferAuto s.infoCycle s.cycleMinTime s.cycleTime ∈
        (s.openConn env f bs).2.2 ↔
      (f.bitDepth ≤ 16 ∧ f.sampleRate ≤ 48000 ∧ f.isDSD = false)) ∧
    (SinkCall.configTransferVarMax s.infoCycle ∈ (s.openConn env f bs).2.2 ↔
      ¬(f.bitDepth ≤ 16 ∧ f.sampleRate ≤ 48000 ∧ f.isDSD = false)) := by
  rw [openConn_calls s env f bs (by omega)]
  by_cases hlow : (f.bitDepth ≤ 16 && f.sampleRate ≤ 48000 && !f.isDSD) = true
  · rw [if_pos hlow]
    simp only [Bool.and_eq_true, decide_eq_true_eq, Bool.not_eq_true'] at hlow
    constructor
    · constructor
      · intro _; exact ⟨hlow.1.1, hlow.1.2, hlow.2⟩
      · intro _; simp
    · constructor
      · intro hmem
        exfalso
        cases hcs : env.connectSucceeds <;> simp [hcs] at hmem
      · intro hnp; exact absurd ⟨hlow.1.1, hlow.1.2, hlow.2⟩ hnp
  · rw [if_neg hlow]
    simp only [Bool.and_eq_true, decide_eq_true_eq, Bool.not_eq_true'] at hlow
    have hnp : ¬(f.bitDepth ≤ 16 ∧ f.sampleRate ≤ 48000 ∧ f.isDSD = false) := by
      intro hp
      exact hlow ⟨⟨hp.1, hp.2.1⟩, hp.2.2⟩
    constructor
    · constructor
      · intro hmem
        exfalso
        cases hcs : env.connectSucceeds <;> simp [hcs] at hmem
      · intro hp; exact absurd hp hnp
    · constructor
      · intro _; exact hnp
      · intro _; simp

/-- Witness for C8: with the default tuning values and a selected target,
opening with CD-quality PCM (16-bit, 44.1 kHz) configures the small-packet
transfer mode. -/
theorem transfer_mode_threshold_witness :
    SinkCall.configTransferAuto 5000 333 10000 ∈
      (((DirettaOutputSimple.init.selectTarget envGood 0).1).openConn envGood
        fmtA 2).2.2 :=
  ((transfer_mode_threshold (DirettaOutputSimple.init.selectTarget envGood 0).1
      envGood fmtA 2 (by decide)).1).2 (by decide)

/-- The reachable state after `opsConnected` followed by `pause`:
connected, playing and paused. -/
def pausedState : DirettaOutputSimple :=
  run DirettaOutputSimple.init (opsConnected ++ [.opPause])

/-- **C9 counterexample.** In the reachable playing-and-paused state,
calling `pause()` and then immediately `resume()` does *not* leave the
paused flag at its prior value: `pause()` is a no-op there, but `resume()`
clears the flag.  This refutes the claim's "for a Sink in any state …
leaves … its playing/paused flags equal to their values before the
pause". -/
theorem pause_resume_counterexample :
    pausedState.isPaused = true ∧
    (((pausedState.pause).1).resume).1.isPaused = false := by decide

/-- **C9 (amended).** Pause followed immediately by resume leaves the
delivered-sample count unchanged in every state, and leaves the whole
state (in particular the playing/paused flags) unchanged in every state
except playing-and-paused, where the pair clears the paused flag;
`pause()` when already paused or not playing and `resume()` when not
paused or not playing change nothing. -/
theorem pause_resume_amended (s : DirettaOutputSimple) :
    (((s.pause).1).resume).1.totalSamplesSent = s.totalSamplesSent ∧
    (¬(s.playing = true ∧ s.isPaused = true) → (((s.pause).1).resume).1 = s) ∧
    (s.isPaused = true ∨ s.playing = false → s.pause = (s, [])) ∧
    (s.isPaused = false ∨ s.playing = false → s.resume = (s, [])) := by
  by_cases hp : s.playing = true
  · by_cases hq : s.isPaused = true
    · refine ⟨?_, fun hc => absurd ⟨hp, hq⟩ hc, fun _ => ?_, fun hc => ?_⟩
      · unfold DirettaOutputSimple.pause DirettaOutputSimple.resume
        simp [hp, hq]
      · unfold DirettaOutputSimple.pause
        simp [hq]
      · rcases hc with hc | hc
        · rw [hq] at hc; cases hc
        · rw [hp] at hc; cases hc
    · have hq' : s.isPaused = false := by simpa using hq
      obtain ⟨f1, f2, f3, f4, f5, f6, f7, f8, f9, f10, f11, f12, f13⟩ := s
      simp only at hp hq'
      subst hp
      subst hq'
      refine ⟨?_, fun _ => ?_, fun hc => ?_, fun _ => ?_⟩
      · unfold DirettaOutputSimple.pause DirettaOutputSimple.resume
        simp
      · unfold DirettaOutputSimple.pause DirettaOutputSimple.resume
        simp
      · rcases hc with hc | hc <;> cases hc
      · unfold DirettaOutputSimple.resume
        simp
  · have hp' : s.playing = false := by simpa using hp
    refine ⟨?_, fun _ => ?_, fun _ => ?_, fun _ => ?_⟩
    · rw [pause_not_playing s hp', resume_not_playing s hp']
    · rw [pause_not_playing s hp', resume_not_playing s hp']
    · exact pause_not_playing s hp'
    · exact resume_not_playing s hp'

/-- Witness for C9 (amended): from the connected (playing, un-paused)
state, pause-then-resume restores the state exactly, and resume alone is a
no-op. -/
theorem pause_resume_amended_witness :
    (((connectedState.pause).1).resume).1 = connectedState ∧
    connectedState.resume = (connectedState, []) :=
  ⟨(pause_resume_amended connectedState).2.1 (by decide),
   (pause_resume_amended connectedState).2.2.2 (Or.inl (by decide))⟩

/-- **C5 counterexample.** From the reachable connected state (format
`fmtA`), `changeFormat fmtB` under a connect timeout returns false, yet the
externally observable current format has changed from `fmtA` to `fmtB`:
the reconfiguration is not atomic as observed through
`getCurrentFormat`. -/
theorem changeFormat_not_atomic_counterexample :
    (connectedState.changeFormat envNoConnect fmtB).2.1 = false ∧
    connectedState.currentFormat = fmtA ∧
    (connectedState.changeFormat envNoConnect fmtB).1.currentFormat = fmtB ∧
    fmtB ≠ fmtA := by decide

/-- **C5 (amended).** If `changeFormat` returns false, the playing and
paused flags are unchanged, but the current format is *not* restored: with
a target selected (connect-timeout failure) `getCurrentFormat` afterwards
reports the new requested format; only when no target was selected is the
state fully unchanged. -/
theorem changeFormat_fail_state (s : DirettaOutputSimple) (env : Env)
    (f : AudioFormat) (h : (s.changeFormat env f).2.1 = false) :
    (s.changeFormat env f).1.playing = s.playing ∧
    (s.changeFormat env f).1.isPaused = s.isPaused ∧
    (0 ≤ s.selectedTargetIndex → (s.changeFormat env f).1.currentFormat = f) ∧
    (s.selectedTargetIndex < 0 → (s.changeFormat env f).1 = s) := by
  have hc1 := (changeFormat_eq_openConn s env f).1
  have hc2 := (changeFormat_eq_openConn s env f).2
  rw [hc2] at h
  rw [hc1]
  rcases openConn_cases s env f s.bufferSeconds with
    ⟨h1, h2⟩ | ⟨h1, h2, h3, h4⟩ | ⟨h1, h2, h3, h4⟩
  · rw [h2]
    exact ⟨rfl, rfl, fun hge => absurd hge (by omega), fun _ => rfl⟩
  · rw [h3]
    exact ⟨rfl, rfl, fun _ => rfl, fun hlt => absurd hlt (by omega)⟩
  · rw [h4] at h
    cases h

/-- Witness for C5 (amended): the connect-timeout failure from the
connected state keeps the flags but leaves the new format visible. -/
theorem changeFormat_fail_state_witness :
    (connectedState.changeFormat envNoConnect fmtB).1.playing =
      connectedState.playing ∧
    (connectedState.changeFormat envNoConnect fmtB).1.currentFormat = fmtB :=
  ⟨(changeFormat_fail_state connectedState envNoConnect fmtB (by decide)).1,
   (changeFormat_fail_state connectedState envNoConnect fmtB
      (by decide)).2.2.1 (by decide)⟩

theorem pumpLoop_childClosed_mem (fmt : AudioFormat) (reads : List Int) :
    ∀ d : DirettaOutputSimple, (pumpLoop d fmt reads).reason = .childClosed →
      LogEvent.childClosedMsg ∈ (pumpLoop d fmt reads).logs := by
  induction reads with
  | nil => intro d h; simp [pumpLoop] at h
  | cons r rs ih =>
    intro d h
    by_cases hr : r ≤ 0
    · by_cases hr0 : r = 0
      · simp [pumpLoop, hr, hr0]
      · simp [pumpLoop, hr, hr0] at h
    · by_cases hok :
        (d.sendAudio (r.toNat / mainBytesPerFrame fmt * fmt.channels)).2.1 = true
      · simp [pumpLoop, hr, hok] at h ⊢
        exact ih _ h
      · simp [pumpLoop, hr, hok] at h

theorem pumpLoop_sendFailed_mem (fmt : AudioFormat) (reads : List Int) :
    ∀ d : DirettaOutputSimple, (pumpLoop d fmt reads).reason = .sendFailed →
      LogEvent.sendFailedMsg ∈ (pumpLoop d fmt reads).logs := by
  induction reads with
  | nil => intro d h; simp [pumpLoop] at h
  | cons r rs ih =>
    intro d h
    by_cases hr : r ≤ 0
    · by_cases hr0 : r = 0
      · simp [pumpLoop, hr, hr0] at h
      · simp [pumpLoop, hr, hr0] at h
    · by_cases hok :
        (d.sendAudio (r.toNat / mainBytesPerFrame fmt * fmt.channels)).2.1 = true
      · simp [pumpLoop, hr, hok] at h ⊢
        exact ih _ h
      · simp [pumpLoop, hr, hok]

theorem pumpLoop_consumed_le (fmt : AudioFormat) (reads : List Int) :
    ∀ d : DirettaOutputSimple, (pumpLoop d fmt reads).consumed ≤ reads.length := by
  induction reads with
  | nil => intro d; simp [pumpLoop]
  | cons r rs ih =>
    intro d
    by_cases hr : r ≤ 0
    · by_cases hr0 : r = 0
      · simp [pumpLoop, hr, hr0]
      · simp [pumpLoop, hr, hr0]
    · by_cases hok :
        (d.sendAudio (r.toNat / mainBytesPerFrame fmt * fmt.channels)).2.1 = true
      · simp only [pumpLoop, List.length_cons]
        rw [if_neg hr]
        simp only [hok, if_true]
        exact Nat.add_le_add_right (ih _) 1
      · simp [pumpLoop, hr, hok]

theorem sendAudio_false_iff (s : DirettaOutputSimple) (n : Nat) :
    (s.sendAudio n).2.1 = false ↔
      (s.playing = false ∨ s.syncBufferNull = true) := by
  unfold DirettaOutputSimple.sendAudio
  by_cases hp : (!s.playing || s.syncBufferNull) = true
  · rw [if_pos hp]
    simp only [Bool.or_eq_true, Bool.not_eq_true'] at hp
    simpa using hp
  · rw [if_neg hp]
    simp only [Bool.or_eq_true, Bool.not_eq_true'] at hp
    push_neg at hp
    split
    · simp [hp.1, hp.2]
    · simp [hp.1, hp.2]

/-- The wrapper configuration used by the concrete `main` runs: defaults
with target 1 and 16-bit output. -/
def cfgEx : Config :=
  { sample_format := 16, diretta_target := 1, buffer_seconds := 2,
    thread_mode := 1, cycle_time := 10000, cycle_min_time := 333,
    info_cycle := 5000, mtu := 0, list_targets := false }

/-- A run of `main` in which everything succeeds and the first `read`
returns 0: the child exited (EOF) with no termination requested. -/
def menvEOF : MainEnv :=
  { sinkEnv := envGood, pipeOk := true, forkOk := true, reads := [0] }

/-- **C3 counterexample.** A chunk whose `sendAudio` returns false (here:
the adapter is not playing) makes the pump loop log the failure and
*break*: of two pending chunks only the first is consumed, so streaming
does not continue to subsequent chunks, refuting "the bridge's streaming
loop continues processing subsequent chunks instead of tearing down the
stream". -/
theorem send_failure_counterexample :
    (pumpLoop DirettaOutputSimple.init (mainFormat cfgEx) [4096, 4096]).reason =
      BreakReason.sendFailed ∧
    (pumpLoop DirettaOutputSimple.init (mainFormat cfgEx) [4096, 4096]).logs =
      [LogEvent.sendFailedMsg] ∧
    (pumpLoop DirettaOutputSimple.init (mainFormat cfgEx) [4096, 4096]).consumed
      = 1 := by decide

/-- **C3 (amended).** When a chunk's submission fails (`sendAudio` returns
false), the failure is logged and the streaming loop *terminates* at that
chunk (the chunk is dropped and no later chunk is processed) rather than
continuing; moreover `sendAudio` returns false only when the adapter is
not playing or its sync buffer is gone — never for transient
backpressure. -/
theorem send_failure_logged_loop_stops (d : DirettaOutputSimple)
    (fmt : AudioFormat) (reads : List Int)
    (h : (pumpLoop d fmt reads).reason = .sendFailed) :
    LogEvent.sendFailedMsg ∈ (pumpLoop d fmt reads).logs ∧
    (pumpLoop d fmt reads).consumed ≤ reads.length ∧
    (∀ (s : DirettaOutputSimple) (n : Nat),
      (s.sendAudio n).2.1 = false ↔
        (s.playing = false ∨ s.syncBufferNull = true)) :=
  ⟨pumpLoop_sendFailed_mem fmt reads d h, pumpLoop_consumed_le fmt reads d,
   fun s n => sendAudio_false_iff s n⟩

/-- Witness for C3 (amended) at the counterexample input. -/
theorem send_failure_logged_loop_stops_witness :
    LogEvent.sendFailedMsg ∈
      (pumpLoop DirettaOutputSimple.init (mainFormat cfgEx) [4096, 4096]).logs :=
  (send_failure_logged_loop_stops DirettaOutputSimple.init (mainFormat cfgEx)
    [4096, 4096] (by decide)).1

/-- **C2 counterexample.** With a healthy target and a successful open, the
child's EOF (read returns 0, no termination requested) makes `main` print
"Squeezelite closed", break out of the loop, clean up, and `return 0`: the
process exit code is 0, refuting the claimed non-zero exit code. -/
theorem child_exit_counterexample :
    (mainRun cfgEx menvEOF).1 = 0 ∧
    LogEvent.childClosedMsg ∈ (mainRun cfgEx menvEOF).2 := by decide

/-- **C2 (amended).** If the child decoder's output stream reaches EOF
while the bridge is running and no termination was requested, the bridge
reports the child exit ("Squeezelite closed"), shuts down without hanging
(the loop and cleanup are total), and exits with code 0 — EOF is treated
as a normal shutdown, not as a fatal error with a non-zero exit code. -/
theorem child_exit_reported_exit_zero (cfg : Config) (menv : MainEnv)
    (h1 : cfg.list_targets = false)
    (h2 : (mainSelected cfg menv).2.1 = true)
    (h3 : menv.pipeOk = true) (h4 : menv.forkOk = true)
    (h5 : (mainOpened cfg menv).2.1 = true)
    (h6 : (mainPump cfg menv).reason = .childClosed) :
    (mainRun cfg menv).1 = 0 ∧
    LogEvent.childClosedMsg ∈ (mainRun cfg menv).2 := by
  unfold mainRun
  rw [if_neg (by simp [h1]), if_neg (by simp [h2]), if_neg (by simp [h3]),
    if_neg (by simp [h4]), if_neg (by simp [h5])]
  exact ⟨rfl, pumpLoop_childClosed_mem (mainFormat cfg) menv.reads _ h6⟩

/-- Witness for C2 (amended) at the concrete EOF run. -/
theorem child_exit_reported_exit_zero_witness :
    (mainRun cfgEx menvEOF).1 = 0 ∧
    LogEvent.childClosedMsg ∈ (mainRun cfgEx menvEOF).2 :=
  child_exit_reported_exit_zero cfgEx menvEOF rfl (by decide) rfl rfl
    (by decide) (by decide)
